import Mathlib

/-!
Shallow embedding of the `tuoy` terminal buoy-table program (`src/main.rs`).

The embedding covers:
* `StatefulTable` with its `next`/`previous` cursor navigation
  (main.rs lines 28-68); `usize` subtraction is modelled as checked
  subtraction (`checkedSub`), so an underflow of `self.items.len() - 1`
  (a Rust debug-mode panic) surfaces as `none`;
* the render loop's event dispatch (main.rs lines 154-182);
* the XML station parser `xml_to_stations` / `ActiveStation::from_node`
  / `ActiveStation::to_row` (main.rs lines 188-241), where a `.unwrap()`
  on a missing attribute (a panic) surfaces as `none`.
-/

namespace Tuoy

/-- Rust `usize` subtraction `a - b` in debug mode: defined when `b ≤ a`,
a panic (modelled as `none`) otherwise. -/
def checkedSub (a b : Nat) : Option Nat :=
  if b ≤ a then some (a - b) else none

/-- `StatefulTable` (main.rs 28-31): a `TableState` selection cursor
(`selected` is `Option<usize>`) plus the owned row sequence `items`. -/
structure StatefulTable where
  selected : Option Nat
  items : List (List String)
deriving DecidableEq, Repr

/-- `StatefulTable::new(rows)` (main.rs 34-40): default `TableState`
(no selection) and the given rows. -/
def StatefulTable.new (rows : List (List String)) : StatefulTable :=
  { selected := none, items := rows }

/-- `StatefulTable::next` (main.rs 41-53).  `Some(i)` branch compares
`i >= self.items.len() - 1` (the subtraction can underflow when `items`
is empty, hence `checkedSub`); `None` branch yields `0`; the result is
stored with `select(Some(i))`. -/
def StatefulTable.next (t : StatefulTable) : Option StatefulTable :=
  match t.selected with
  | some i =>
      match checkedSub t.items.length 1 with
      | some m => some { t with selected := some (if m ≤ i then 0 else i + 1) }
      | none => none
  | none => some { t with selected := some 0 }

/-- `StatefulTable::previous` (main.rs 55-67).  `Some(i)` branch: if
`i == 0` take `self.items.len() - 1` (can underflow on empty `items`),
else `i - 1` (never underflows since `i ≠ 0`); `None` branch yields `0`. -/
def StatefulTable.previous (t : StatefulTable) : Option StatefulTable :=
  match t.selected with
  | some i =>
      if i = 0 then
        match checkedSub t.items.length 1 with
        | some m => some { t with selected := some m }
        | none => none
      else some { t with selected := some (i - 1) }
  | none => some { t with selected := some 0 }

/-- The key codes distinguished by the render loop's match
(main.rs 155-171): `Char(c)`, `Down`, `Up`, and a stand-in for every
other `crossterm::KeyCode` variant (all hit the `_` arm). -/
inductive KeyCode where
  | char : Char → KeyCode
  | down : KeyCode
  | up : KeyCode
  | otherKey : KeyCode
deriving DecidableEq, Repr

/-- The mouse events distinguished by the render loop's match
(main.rs 172-181): `ScrollDown`, `ScrollUp`, and a stand-in for every
other `crossterm::MouseEvent` variant (all hit the `_` arm; the
coordinate/modifier payloads are unused). -/
inductive MouseEvent where
  | scrollDown : MouseEvent
  | scrollUp : MouseEvent
  | otherMouse : MouseEvent
deriving DecidableEq, Repr

/-- `Event<I, J>` (main.rs 23-26) as consumed by the render loop: a key
event carrying its code, or a mouse event. -/
inductive Event where
  | key : KeyCode → Event
  | mouse : MouseEvent → Event
deriving DecidableEq, Repr

/-- One iteration of the render loop's event dispatch (main.rs 154-182).
Returns `(quit, table)`: `quit = true` on `Char('q')` (the `break` arm);
`Down` applies `next`, `Up` applies `previous`; `ScrollDown` applies
`previous`, `ScrollUp` applies `next`; every other event leaves the
table untouched.  `none` models a panic inside `next`/`previous`. -/
def dispatch (t : StatefulTable) (e : Event) : Option (Bool × StatefulTable) :=
  match e with
  | .key k =>
      match k with
      | .char c => if c = 'q' then some (true, t) else some (false, t)
      | .down => (t.next).map (fun t2 => (false, t2))
      | .up => (t.previous).map (fun t2 => (false, t2))
      | .otherKey => some (false, t)
  | .mouse m =>
      match m with
      | .scrollDown => (t.previous).map (fun t2 => (false, t2))
      | .scrollUp => (t.next).map (fun t2 => (false, t2))
      | .otherMouse => some (false, t)

/-- A navigation operation on the table: `next()` or `previous()`. -/
inductive NavOp where
  | nextOp : NavOp
  | prevOp : NavOp
deriving DecidableEq, Repr

/-- Apply one navigation operation. -/
def applyOp (t : StatefulTable) : NavOp → Option StatefulTable
  | .nextOp => t.next
  | .prevOp => t.previous

/-- Apply a sequence of navigation operations left to right; a panic
(`none`) in any step aborts the run. -/
def applyOps (t : StatefulTable) : List NavOp → Option StatefulTable
  | [] => some t
  | op :: ops => (applyOp t op).bind (fun t2 => applyOps t2 ops)

/-- Iterate `next` a given number of times. -/
def applyNextN : Nat → StatefulTable → Option StatefulTable
  | 0, t => some t
  | n + 1, t => (t.next).bind (applyNextN n)

/-- `roxmltree::Node::attribute(name)` over an element modelled as its
attribute list: the value of the first attribute with that name. -/
def attributeVal (attrs : List (String × String)) (name : String) : Option String :=
  (attrs.find? (fun p => p.fst == name)).map (fun p => p.snd)

/-- An XML element as the station parser sees it: tag name and
attributes. -/
structure XmlNode where
  tag : String
  attrs : List (String × String)
deriving DecidableEq, Repr

/-- `ActiveStation` (main.rs 197-208). -/
structure ActiveStation where
  id : String
  name : String
  lat : String
  lon : String
  program : String
  kind : String
  met : String
  currents : String
  water_quality : String
  dart : String
deriving DecidableEq, Repr

/-- `ActiveStation::from_node` (main.rs 211-224).  `lat` and `lon` use
`.unwrap()` (panic on absence, modelled as `none`); `id`, `name`,
`pgm`, `type` fall back to a descriptive placeholder via `map_or`;
`met`, `currents`, `waterquality`, `dart` fall back to `"n"`. -/
def ActiveStation.from_node (attrs : List (String × String)) : Option ActiveStation :=
  match attributeVal attrs "lat", attributeVal attrs "lon" with
  | some lat, some lon =>
      some {
        id := (attributeVal attrs "id").getD "whew, no id? how\x27d that happen"
        name := (attributeVal attrs "name").getD "whew, no name? how\x27d that happen"
        lat := lat
        lon := lon
        program := (attributeVal attrs "pgm").getD "whew, no pgm? how\x27d that happen"
        kind := (attributeVal attrs "type").getD "whew, no kind? how\x27d that happen"
        met := (attributeVal attrs "met").getD "n"
        currents := (attributeVal attrs "currents").getD "n"
        water_quality := (attributeVal attrs "waterquality").getD "n"
        dart := (attributeVal attrs "dart").getD "n" }
  | _, _ => none

/-- `ActiveStation::to_row` (main.rs 226-240): the ten fields in push
order. -/
def ActiveStation.to_row (a : ActiveStation) : List String :=
  [a.id, a.name, a.lat, a.lon, a.program, a.kind, a.met, a.currents,
   a.water_quality, a.dart]

/-- The `map(from_node).collect()` step of `xml_to_stations`: a panic in
any `from_node` call aborts the whole collection. -/
def collectStations : List XmlNode → Option (List ActiveStation)
  | [] => some []
  | n :: rest =>
      match ActiveStation.from_node n.attrs, collectStations rest with
      | some st, some sts => some (st :: sts)
      | _, _ => none

/-- `xml_to_stations` (main.rs 188-195) over a document modelled as its
flattened descendant list: keep elements whose tag name is `"station"`
and run `ActiveStation::from_node` on each. -/
def xml_to_stations (doc : List XmlNode) : Option (List ActiveStation) :=
  collectStations (doc.filter (fun n => n.tag == "station"))

/-! Helper lemmas about the navigation operations. -/

/-- With no selection, `next` selects index 0 (no arithmetic is run). -/
theorem next_of_none (t : StatefulTable) (h : t.selected = none) :
    t.next = some { t with selected := some 0 } := by
  unfold StatefulTable.next
  rw [h]

/-- With no selection, `previous` selects index 0 (no arithmetic is run). -/
theorem previous_of_none (t : StatefulTable) (h : t.selected = none) :
    t.previous = some { t with selected := some 0 } := by
  unfold StatefulTable.previous
  rw [h]

/-- With a valid selection, `next` advances the cursor to
`(i + 1) % len`. -/
theorem next_of_some (t : StatefulTable) (i : Nat)
    (hsel : t.selected = some i) (hi : i < t.items.length) :
    t.next = some { t with selected := some ((i + 1) % t.items.length) } := by
  have hle : 1 ≤ t.items.length := lt_of_le_of_lt (Nat.zero_le i) hi
  by_cases hc : t.items.length - 1 ≤ i
  · have hi2 : i = t.items.length - 1 := by omega
    have hmod : (i + 1) % t.items.length = 0 := by
      rw [hi2, Nat.sub_add_cancel hle, Nat.mod_self]
    simp [StatefulTable.next, checkedSub, hsel, hle, hc, hmod]
  · have hmod : (i + 1) % t.items.length = i + 1 := Nat.mod_eq_of_lt (by omega)
    simp [StatefulTable.next, checkedSub, hsel, hle, hc, hmod]

/-- With a valid selection, `previous` retreats the cursor to
`(i + len - 1) % len`. -/
theorem previous_of_some (t : StatefulTable) (i : Nat)
    (hsel : t.selected = some i) (hi : i < t.items.length) :
    t.previous
      = some { t with selected := some ((i + t.items.length - 1) % t.items.length) } := by
  have hle : 1 ≤ t.items.length := lt_of_le_of_lt (Nat.zero_le i) hi
  by_cases h0 : i = 0
  · subst h0
    have hmod : (0 + t.items.length - 1) % t.items.length = t.items.length - 1 := by
      rw [Nat.zero_add]
      exact Nat.mod_eq_of_lt (by omega)
    simp [StatefulTable.previous, checkedSub, hsel, hle, hmod]
  · have harith : i + t.items.length - 1 = (i - 1) + t.items.length := by omega
    have hmod : (i + t.items.length - 1) % t.items.length = i - 1 := by
      rw [harith, Nat.add_mod_right]
      exact Nat.mod_eq_of_lt (by omega)
    simp [StatefulTable.previous, checkedSub, hsel, h0, hmod]

/-- On a non-empty table, `next` never panics. -/
theorem next_isSome (t : StatefulTable) (h : t.items ≠ []) :
    (t.next).isSome = true := by
  have hle : 1 ≤ t.items.length := List.length_pos.mpr h
  cases hsel : t.selected with
  | none => rw [next_of_none t hsel]; rfl
  | some i => simp [StatefulTable.next, checkedSub, hsel, hle]

/-- On a non-empty table, `previous` never panics. -/
theorem previous_isSome (t : StatefulTable) (h : t.items ≠ []) :
    (t.previous).isSome = true := by
  have hle : 1 ≤ t.items.length := List.length_pos.mpr h
  cases hsel : t.selected with
  | none => rw [previous_of_none t hsel]; rfl
  | some i =>
      by_cases h0 : i = 0 <;>
        simp [StatefulTable.previous, checkedSub, hsel, hle, h0]

/-- One navigation step on a non-empty table succeeds, keeps the rows,
and keeps the selection in range. -/
theorem applyOp_preserves (t : StatefulTable) (op : NavOp) (h : t.items ≠ [])
    (hinv : ∀ i, t.selected = some i → i < t.items.length) :
    ∃ t2, applyOp t op = some t2 ∧ t2.items = t.items ∧
      ∀ i, t2.selected = some i → i < t2.items.length := by
  have hpos : 0 < t.items.length := List.length_pos.mpr h
  cases op with
  | nextOp =>
      cases hsel : t.selected with
      | none =>
          refine ⟨{ t with selected := some 0 }, ?_, rfl, ?_⟩
          · simpa [applyOp] using next_of_none t hsel
          · intro j hj
            simp at hj
            subst hj
            exact hpos
      | some i =>
          have hi := hinv i hsel
          refine ⟨{ t with selected := some ((i + 1) % t.items.length) }, ?_, rfl, ?_⟩
          · simpa [applyOp] using next_of_some t i hsel hi
          · intro j hj
            simp at hj
            subst hj
            exact Nat.mod_lt _ hpos
  | prevOp =>
      cases hsel : t.selected with
      | none =>
          refine ⟨{ t with selected := some 0 }, ?_, rfl, ?_⟩
          · simpa [applyOp] using previous_of_none t hsel
          · intro j hj
            simp at hj
            subst hj
            exact hpos
      | some i =>
          have hi := hinv i hsel
          refine ⟨{ t with selected := some ((i + t.items.length - 1) % t.items.length) },
            ?_, rfl, ?_⟩
          · simpa [applyOp] using previous_of_some t i hsel hi
          · intro j hj
            simp at hj
            subst hj
            exact Nat.mod_lt _ hpos

/-- A whole run of navigation steps on a non-empty table succeeds, keeps
the rows, and keeps the selection in range. -/
theorem applyOps_preserves (ops : List NavOp) (t : StatefulTable) (h : t.items ≠ [])
    (hinv : ∀ i, t.selected = some i → i < t.items.length) :
    ∃ t2, applyOps t ops = some t2 ∧ t2.items = t.items ∧
      ∀ i, t2.selected = some i → i < t2.items.length := by
  induction ops generalizing t with
  | nil => exact ⟨t, rfl, rfl, hinv⟩
  | cons op ops ih =>
      obtain ⟨t1, hop, hitems, hinv1⟩ := applyOp_preserves t op h hinv
      obtain ⟨t2, hops, hitems2, hinv2⟩ := ih t1 (by rw [hitems]; exact h) hinv1
      refine ⟨t2, ?_, by rw [hitems2, hitems], hinv2⟩
      simp [applyOps, hop, hops]

/-- Iterating `next` from a valid selection lands on `(i + k) % len`. -/
theorem applyNextN_of_some (items : List (List String)) (k i : Nat)
    (hi : i < items.length) :
    applyNextN k { selected := some i, items := items }
      = some { selected := some ((i + k) % items.length), items := items } := by
  induction k generalizing i with
  | zero => simp [applyNextN, Nat.mod_eq_of_lt hi]
  | succ k ih =>
      have hpos : 0 < items.length := lt_of_le_of_lt (Nat.zero_le i) hi
      rw [applyNextN,
        next_of_some { selected := some i, items := items } i rfl hi]
      rw [Option.some_bind]
      rw [ih ((i + 1) % items.length) (Nat.mod_lt _ hpos)]
      have : ((i + 1) % items.length + k) % items.length
          = (i + (k + 1)) % items.length := by
        rw [Nat.mod_add_mod]
        congr 1
        omega
      rw [this]

/-! Helper lemmas about the station parser. -/

/-- A missing `lat` attribute makes `from_node` panic. -/
theorem from_node_none_of_no_lat (attrs : List (String × String))
    (h : attributeVal attrs "lat" = none) :
    ActiveStation.from_node attrs = none := by
  cases hlon : attributeVal attrs "lon" <;>
    simp [ActiveStation.from_node, h, hlon]

/-- A missing `lon` attribute makes `from_node` panic. -/
theorem from_node_none_of_no_lon (attrs : List (String × String))
    (h : attributeVal attrs "lon" = none) :
    ActiveStation.from_node attrs = none := by
  cases hlat : attributeVal attrs "lat" <;>
    simp [ActiveStation.from_node, h, hlat]

/-- With `lat` and `lon` present, `from_node` succeeds and fills every
other field from the attribute list with its fallback. -/
theorem from_node_some (attrs : List (String × String)) (lat lon : String)
    (hlat : attributeVal attrs "lat" = some lat)
    (hlon : attributeVal attrs "lon" = some lon) :
    ActiveStation.from_node attrs = some {
      id := (attributeVal attrs "id").getD "whew, no id? how\x27d that happen"
      name := (attributeVal attrs "name").getD "whew, no name? how\x27d that happen"
      lat := lat
      lon := lon
      program := (attributeVal attrs "pgm").getD "whew, no pgm? how\x27d that happen"
      kind := (attributeVal attrs "type").getD "whew, no kind? how\x27d that happen"
      met := (attributeVal attrs "met").getD "n"
      currents := (attributeVal attrs "currents").getD "n"
      water_quality := (attributeVal attrs "waterquality").getD "n"
      dart := (attributeVal attrs "dart").getD "n" } := by
  simp [ActiveStation.from_node, hlat, hlon]

/-- A document holding one `station` element parses to the result of
`from_node` on that element alone. -/
theorem xml_to_stations_singleton (attrs : List (String × String)) :
    xml_to_stations [{ tag := "station", attrs := attrs }]
      = (ActiveStation.from_node attrs).map (fun st => [st]) := by
  cases hfn : ActiveStation.from_node attrs <;>
    simp [xml_to_stations, collectStations, hfn]

/-! Claim theorems. -/

/-- C1, counterexample: at the table with rows a, b, c and selection 0,
a scroll-down event moves the selection to 2 (the `previous()` result),
not to 1 (the `next()` result the claim demands). -/
theorem claim_C1_counterexample :
    dispatch { selected := some 0, items := [["a"], ["b"], ["c"]] }
        (Event.mouse MouseEvent.scrollDown)
      = some (false, { selected := some 2, items := [["a"], ["b"], ["c"]] }) ∧
    (StatefulTable.next { selected := some 0, items := [["a"], ["b"], ["c"]] }).map
        (fun t2 => (false, t2))
      = some (false, { selected := some 1, items := [["a"], ["b"], ["c"]] }) ∧
    dispatch { selected := some 0, items := [["a"], ["b"], ["c"]] }
        (Event.mouse MouseEvent.scrollDown)
      ≠ (StatefulTable.next { selected := some 0, items := [["a"], ["b"], ["c"]] }).map
          (fun t2 => (false, t2)) := by
  refine ⟨by decide, by decide, by decide⟩

/-- C1, amended: in the render loop dispatch a scroll-down event retreats
the selection (applies `previous()`) and a scroll-up event advances it
(applies `next()`). -/
theorem claim_C1_amended_thm (t : StatefulTable) :
    dispatch t (Event.mouse MouseEvent.scrollDown)
      = (t.previous).map (fun t2 => (false, t2)) ∧
    dispatch t (Event.mouse MouseEvent.scrollUp)
      = (t.next).map (fun t2 => (false, t2)) :=
  ⟨rfl, rfl⟩

/-- C2, counterexample: on 2 rows, the first of two `next()` calls from
the no-selection state visits index 0, yet after both calls the cursor
sits at index 1, not at the first-visited index. -/
theorem claim_C2_counterexample :
    (applyNextN 1 (StatefulTable.new [["a"], ["b"]])).map StatefulTable.selected
      = some (some 0) ∧
    (applyNextN 2 (StatefulTable.new [["a"], ["b"]])).map StatefulTable.selected
      = some (some 1) ∧
    ((some (some 1) : Option (Option Nat)) ≠ some (some 0)) := by
  refine ⟨by decide, by decide, by decide⟩

/-- C2, amended: for every non-empty row sequence of length N, `next()`
from the no-selection state first visits index 0, and N further calls
(N + 1 calls in all) return the cursor there. -/
theorem claim_C2_amended_thm (items : List (List String)) (h : items ≠ []) :
    applyNextN 1 (StatefulTable.new items)
      = some { selected := some 0, items := items } ∧
    applyNextN (items.length + 1) (StatefulTable.new items)
      = some { selected := some 0, items := items } := by
  have hpos : 0 < items.length := List.length_pos.mpr h
  have hfirst : StatefulTable.next (StatefulTable.new items)
      = some { selected := some 0, items := items } := rfl
  constructor
  · rw [applyNextN, hfirst, Option.some_bind]
    rfl
  · rw [applyNextN, hfirst, Option.some_bind,
      applyNextN_of_some items items.length 0 hpos]
    rw [Nat.zero_add, Nat.mod_self]

/-- C2, witness for the amended theorem at the two-row table. -/
theorem claim_C2_witness :
    applyNextN 1 (StatefulTable.new [["a"], ["b"]])
      = some { selected := some 0, items := [["a"], ["b"]] } ∧
    applyNextN (([["a"], ["b"]] : List (List String)).length + 1)
        (StatefulTable.new [["a"], ["b"]])
      = some { selected := some 0, items := [["a"], ["b"]] } :=
  claim_C2_amended_thm [["a"], ["b"]] (by decide)

/-- C3, counterexample: on the empty table one `next()` call yields
selection index 0, which is not below the row count 0. -/
theorem claim_C3_counterexample :
    applyOps (StatefulTable.new []) [NavOp.nextOp]
      = some { selected := some 0, items := [] } ∧
    ¬ (0 < (StatefulTable.new []).items.length) := by
  refine ⟨by decide, by decide⟩

/-- C3, amended: for every table with non-empty rows and every sequence
of `next()` and `previous()` calls from the initial no-selection state,
the run never panics and the selected index, when present, stays
strictly below the number of rows. -/
theorem claim_C3_amended_thm (items : List (List String)) (ops : List NavOp)
    (h : items ≠ []) :
    (applyOps (StatefulTable.new items) ops).isSome = true ∧
    ∀ t2 i, applyOps (StatefulTable.new items) ops = some t2 →
      t2.selected = some i → i < items.length := by
  obtain ⟨t2, heq, hitems, hinv⟩ := applyOps_preserves ops (StatefulTable.new items) h
    (by intro i hi; simp [StatefulTable.new] at hi)
  refine ⟨by rw [heq]; rfl, ?_⟩
  intro t2' i he hs
  rw [heq] at he
  injection he with he2
  subst he2
  have := hinv i hs
  rwa [hitems] at this

/-- C3, witness for the amended theorem at a one-row table with a
next-next run. -/
theorem claim_C3_witness :
    (applyOps (StatefulTable.new [["a"]]) [NavOp.nextOp, NavOp.nextOp]).isSome = true ∧
    0 < ([["a"]] : List (List String)).length := by
  have h := claim_C3_amended_thm [["a"]] [NavOp.nextOp, NavOp.nextOp] (by decide)
  exact ⟨h.1, h.2 { selected := some 0, items := [["a"]] } 0 (by decide) rfl⟩

/-- C4: on a non-empty table `next()` never panics, selects 0 from the
no-selection state, and otherwise advances a valid selection to
`(current + 1) mod len(rows)`. -/
theorem claim_C4_thm (t : StatefulTable) (h : t.items ≠ []) :
    (t.next).isSome = true ∧
    (t.selected = none → t.next = some { t with selected := some 0 }) ∧
    ∀ i, t.selected = some i → i < t.items.length →
      t.next = some { t with selected := some ((i + 1) % t.items.length) } :=
  ⟨next_isSome t h, fun hn => next_of_none t hn,
    fun i hsel hi => next_of_some t i hsel hi⟩

/-- C4, witness at the two-row table with selection 1 (the wrap case). -/
theorem claim_C4_witness :
    ((StatefulTable.next { selected := some 1, items := [["a"], ["b"]] }).isSome = true) ∧
    StatefulTable.next { selected := some 1, items := [["a"], ["b"]] }
      = some { selected := some ((1 + 1) % ([["a"], ["b"]] : List (List String)).length),
               items := [["a"], ["b"]] } := by
  have h := claim_C4_thm { selected := some 1, items := [["a"], ["b"]] } (by decide)
  exact ⟨h.1, h.2.2 1 rfl (by decide)⟩

/-- C5: on a non-empty table `previous()` selects 0 from the
no-selection state, and otherwise retreats a valid selection to
`(current - 1 + len(rows)) mod len(rows)` (written over naturals as
`(current + len(rows) - 1) mod len(rows)`). -/
theorem claim_C5_thm (t : StatefulTable) (h : t.items ≠ []) :
    (t.previous).isSome = true ∧
    (t.selected = none → t.previous = some { t with selected := some 0 }) ∧
    ∀ i, t.selected = some i → i < t.items.length →
      t.previous
        = some { t with selected := some ((i + t.items.length - 1) % t.items.length) } :=
  ⟨previous_isSome t h, fun hn => previous_of_none t hn,
    fun i hsel hi => previous_of_some t i hsel hi⟩

/-- C5, witness at the two-row table with selection 0 (the wrap case). -/
theorem claim_C5_witness :
    ((StatefulTable.previous { selected := some 0, items := [["a"], ["b"]] }).isSome = true) ∧
    StatefulTable.previous { selected := some 0, items := [["a"], ["b"]] }
      = some { selected := some ((0 + ([["a"], ["b"]] : List (List String)).length - 1)
                 % ([["a"], ["b"]] : List (List String)).length),
               items := [["a"], ["b"]] } := by
  have h := claim_C5_thm { selected := some 0, items := [["a"], ["b"]] } (by decide)
  exact ⟨h.1, h.2.2 0 rfl (by decide)⟩

/-- C6: from any valid selection, `previous()` after `next()` returns the
table to its starting state, and from selection 0 `previous()` alone
selects the last index. -/
theorem claim_C6_thm (t : StatefulTable) (i : Nat)
    (hsel : t.selected = some i) (hi : i < t.items.length) :
    (t.next).bind StatefulTable.previous = some t ∧
    (i = 0 → t.previous = some { t with selected := some (t.items.length - 1) }) := by
  have hpos : 0 < t.items.length := lt_of_le_of_lt (Nat.zero_le i) hi
  constructor
  · rw [next_of_some t i hsel hi, Option.some_bind]
    have hj : ((i + 1) % t.items.length) < t.items.length := Nat.mod_lt _ hpos
    rw [previous_of_some { t with selected := some ((i + 1) % t.items.length) }
      ((i + 1) % t.items.length) rfl hj]
    have key : ((i + 1) % t.items.length + t.items.length - 1) % t.items.length = i := by
      rcases Nat.lt_or_ge (i + 1) t.items.length with hlt | hge
      · rw [Nat.mod_eq_of_lt hlt]
        have h2 : i + 1 + t.items.length - 1 = i + t.items.length := by omega
        rw [h2, Nat.add_mod_right]
        exact Nat.mod_eq_of_lt hi
      · have hieq : i + 1 = t.items.length := by omega
        rw [hieq, Nat.mod_self, Nat.zero_add]
        rw [Nat.mod_eq_of_lt (by omega)]
        omega
    rw [key]
    obtain ⟨sel, items⟩ := t
    simp only at hsel
    subst hsel
    rfl
  · intro h0
    subst h0
    rw [previous_of_some t 0 hsel hi]
    have hmod : (0 + t.items.length - 1) % t.items.length = t.items.length - 1 := by
      rw [Nat.zero_add]
      exact Nat.mod_eq_of_lt (by omega)
    rw [hmod]

/-- C6, witness at the two-row table with selection 0. -/
theorem claim_C6_witness :
    ((StatefulTable.next { selected := some 0, items := [["a"], ["b"]] }).bind
        StatefulTable.previous
      = some { selected := some 0, items := [["a"], ["b"]] }) ∧
    StatefulTable.previous { selected := some 0, items := [["a"], ["b"]] }
      = some { selected := some (([["a"], ["b"]] : List (List String)).length - 1),
               items := [["a"], ["b"]] } := by
  have h := claim_C6_thm { selected := some 0, items := [["a"], ["b"]] } 0 rfl (by decide)
  exact ⟨h.1, h.2 rfl⟩

/-- C7: a document whose station element lacks the `lat` attribute
parses to a panic, while one whose station element lacks only the `met`
attribute parses to one station whose `met` field, also slot 6 of its
row, is the string n. -/
theorem claim_C7_thm (attrs1 attrs2 : List (String × String)) (lat lon : String)
    (h1 : attributeVal attrs1 "lat" = none)
    (h2 : attributeVal attrs2 "lat" = some lat)
    (h3 : attributeVal attrs2 "lon" = some lon)
    (h4 : attributeVal attrs2 "met" = none) :
    xml_to_stations [{ tag := "station", attrs := attrs1 }] = none ∧
    (xml_to_stations [{ tag := "station", attrs := attrs2 }]).map
        (fun sts => sts.map (fun st => (st.met, st.to_row.get? 6)))
      = some [("n", some "n")] := by
  constructor
  · rw [xml_to_stations_singleton, from_node_none_of_no_lat attrs1 h1]
    rfl
  · rw [xml_to_stations_singleton, from_node_some attrs2 lat lon h2 h3]
    simp [ActiveStation.to_row, h4]

/-- C7, witness: a station element with only an id, and one with only
lat and lon. -/
theorem claim_C7_witness :
    xml_to_stations [{ tag := "station", attrs := [("id", "41001")] }] = none ∧
    (xml_to_stations
        [{ tag := "station", attrs := [("lat", "34.7"), ("lon", "-72.7")] }]).map
        (fun sts => sts.map (fun st => (st.met, st.to_row.get? 6)))
      = some [("n", some "n")] :=
  claim_C7_thm [("id", "41001")] [("lat", "34.7"), ("lon", "-72.7")] "34.7" "-72.7"
    (by decide) (by decide) (by decide) (by decide)

/-- C8: the code violates the claim: on the empty table the second of
two `next()` calls, or of two `previous()` calls, evaluates
`items.len() - 1` with length 0 and panics on the underflow. -/
theorem claim_C8_panic :
    applyOps (StatefulTable.new []) [NavOp.nextOp, NavOp.nextOp] = none ∧
    applyOps (StatefulTable.new []) [NavOp.prevOp, NavOp.prevOp] = none := by
  refine ⟨by decide, by decide⟩

/-- C9: every key event other than the q character, Down and Up, and
every mouse event other than scroll-up and scroll-down, leaves the
table (rows and cursor) unchanged and does not quit. -/
theorem claim_C9_thm (t : StatefulTable) (e : Event)
    (hq : ∀ c, e = Event.key (KeyCode.char c) → c ≠ 'q')
    (hdown : e ≠ Event.key KeyCode.down)
    (hup : e ≠ Event.key KeyCode.up)
    (hsd : e ≠ Event.mouse MouseEvent.scrollDown)
    (hsu : e ≠ Event.mouse MouseEvent.scrollUp) :
    dispatch t e = some (false, t) := by
  cases e with
  | key k =>
      cases k with
      | char c =>
          have hc := hq c rfl
          simp [dispatch, hc]
      | down => exact absurd rfl hdown
      | up => exact absurd rfl hup
      | otherKey => rfl
  | mouse m =>
      cases m with
      | scrollDown => exact absurd rfl hsd
      | scrollUp => exact absurd rfl hsu
      | otherMouse => rfl

/-- C9, witness at the x key. -/
theorem claim_C9_witness :
    dispatch (StatefulTable.new [["a"]]) (Event.key (KeyCode.char 'x'))
      = some (false, StatefulTable.new [["a"]]) :=
  claim_C9_thm (StatefulTable.new [["a"]]) (Event.key (KeyCode.char 'x'))
    (by intro c hc; injection hc with h1; injection h1 with h2; subst h2; decide)
    (by decide) (by decide) (by decide) (by decide)

/-- C10: `from_node` requires exactly `lat` and `lon` (absence of either
panics, and their presence alone suffices); an absent id, name, pgm or
type attribute falls back to its descriptive placeholder and an absent
met, currents, waterquality or dart attribute falls back to n. -/
theorem claim_C10_thm (attrs1 attrs2 : List (String × String)) (lat lon : String)
    (h1 : attributeVal attrs1 "lat" = none ∨ attributeVal attrs1 "lon" = none)
    (h2 : attributeVal attrs2 "lat" = some lat)
    (h3 : attributeVal attrs2 "lon" = some lon) :
    ActiveStation.from_node attrs1 = none ∧
    (ActiveStation.from_node attrs2).isSome = true ∧
    ActiveStation.from_node [("lat", lat), ("lon", lon)]
      = some { id := "whew, no id? how\x27d that happen"
               name := "whew, no name? how\x27d that happen"
               lat := lat
               lon := lon
               program := "whew, no pgm? how\x27d that happen"
               kind := "whew, no kind? how\x27d that happen"
               met := "n", currents := "n", water_quality := "n", dart := "n" } := by
  refine ⟨?_, ?_, ?_⟩
  · rcases h1 with h1 | h1
    · exact from_node_none_of_no_lat attrs1 h1
    · exact from_node_none_of_no_lon attrs1 h1
  · rw [from_node_some attrs2 lat lon h2 h3]
    rfl
  · rw [from_node_some [("lat", lat), ("lon", lon)] lat lon rfl rfl]
    rfl

/-- C10, witness: one element missing lat, one with extra attributes,
and the bare lat-lon element. -/
theorem claim_C10_witness :
    ActiveStation.from_node [("lon", "-72.7")] = none ∧
    (ActiveStation.from_node
        [("lat", "34.7"), ("lon", "-72.7"), ("id", "41001")]).isSome = true ∧
    ActiveStation.from_node [("lat", "34.7"), ("lon", "-72.7")]
      = some { id := "whew, no id? how\x27d that happen"
               name := "whew, no name? how\x27d that happen"
               lat := "34.7"
               lon := "-72.7"
               program := "whew, no pgm? how\x27d that happen"
               kind := "whew, no kind? how\x27d that happen"
               met := "n", currents := "n", water_quality := "n", dart := "n" } :=
  claim_C10_thm [("lon", "-72.7")] [("lat", "34.7"), ("lon", "-72.7"), ("id", "41001")]
    "34.7" "-72.7" (Or.inl (by decide)) (by decide) (by decide)

end Tuoy
